/-
Verification of the study-advisor chat backend (src/main.py) against its
specification.  The database tables, the fixed onboarding question list and
every HTTP handler of the source file are embedded as executable Lean
definitions; the theorems below settle the specification claims.

Modelling conventions:
  * each SQLAlchemy table is a list of rows inside a `DB` value, together
    with the next auto-increment primary key for that table;
  * a handler is a function from its request data and the current `DB`
    (plus, where the handler posts to the external completion API, an
    `ApiResult` describing how that HTTP call behaves) to a result record
    carrying the JSON payload, the new `DB`, whether `db.close()` was
    executed on that control path, and the message list that was posted;
  * a Python exception propagating out of the handler (the `requests.post`
    call raising, or a UNIQUE-constraint violation at commit time) is
    modelled by `response := none` / `CreateOutcome.integrityError`, with
    `closed := false` because no `db.close()` runs on such a path.
-/
import Mathlib

set_option maxHeartbeats 1000000

namespace StudyAdvisor

/-! ## Data model: the four tables of src/main.py -/

/-- A row of the `chat_logs` table. -/
structure ChatLog where
  id : Nat
  session_id : String
  role : String
  content : String
deriving Repr, DecidableEq

/-- A row of the `chat_sessions` table (`session_id` carries a UNIQUE
constraint in the source schema). -/
structure ChatSession where
  id : Nat
  session_id : String
  title : String
  question_index : Nat
deriving Repr, DecidableEq

/-- A row of the `screen_time_logs` table; the date is an abstract day
number supplied by the caller (the source uses `date.today()`). -/
structure ScreenTimeLog where
  id : Nat
  session_id : String
  day : Nat
  study_time : Float
  sns_time : Float
  game_time : Float
deriving Repr

/-- A row of the `schedule_plans` table (declared in the source schema but
never read or written by any handler). -/
structure SchedulePlan where
  id : Nat
  session_id : String
  day : Nat
  plan_json : String
deriving Repr, DecidableEq

/-- The whole SQLite database, each table in primary-key insertion order,
with the next auto-increment id per table. -/
structure DB where
  chat_logs : List ChatLog
  chat_sessions : List ChatSession
  screen_time_logs : List ScreenTimeLog
  schedule_plans : List SchedulePlan
  nextLogId : Nat
  nextSessionId : Nat
  nextScreenId : Nat
deriving Repr

def emptyDB : DB := ⟨[], [], [], [], 1, 1, 1⟩

/-! ## Request/response shapes -/

/-- Body of `POST /chat`. -/
structure ChatRequest where
  message : String
  session_id : String
deriving Repr, DecidableEq

/-- Body of `POST /sessions`. -/
structure ChatSessionCreate where
  session_id : String
  title : String
deriving Repr, DecidableEq

/-- Body of `POST /screen_time`. -/
structure ScreenTimeInput where
  study_time : Float
  sns_time : Float
  game_time : Float
deriving Repr

/-- One element of an OpenAI-style message list, and also the shape of one
entry of the `/history` payload. -/
structure Message where
  role : String
  content : String
deriving Repr, DecidableEq

/-- Behaviour of the external completion API for one `requests.post` call:
either the call raises a Python exception, or it returns a status code
together with `some reply` when `json()["choices"][0]["message"]["content"]`
is extractable and `none` when the body is malformed. -/
inductive ApiResult where
  | raises : ApiResult
  | response : Nat → Option String → ApiResult
deriving Repr, DecidableEq

/-! ## The fixed onboarding question list and the system instruction -/

def QUESTIONS : List String :=
  [ "こんにちは！私はあなたの勉強をサポートします！まずは5つの質問であなたのことを教えてください",
    "あなたのことは何と呼べばいいですか？",
    "了解です！何のための勉強をサポートしてほしいですか？(例: 試験対策、受験勉強など)",
    "なるほど、普段の1日の勉強時間はどのくらいですか？",
    "スマホは１日どれくらい使いますか？",
    "勉強はコツコツやる派ですかそれとも一夜漬けタイプ？" ]

def SYSTEM_PROMPT : String :=
  "あなたは勉強のアドバイザーです。共感しつつ柔らかくアドバイスしてください。"

/-! ## Store primitives shared by the handlers -/

/-- `db.query(ChatSession).filter(ChatSession.session_id == sid).first()`. -/
def findSession (db : DB) (sid : String) : Option ChatSession :=
  db.chat_sessions.find? (fun s => s.session_id == sid)

/-- `db.add(ChatLog(session_id=sid, role=role, content=content)); db.commit()`:
an insert receiving the next auto-increment id. -/
def appendLog (db : DB) (sid role content : String) : DB :=
  { db with
    chat_logs := db.chat_logs ++ [⟨db.nextLogId, sid, role, content⟩],
    nextLogId := db.nextLogId + 1 }

/-- The per-row effect of `session_obj.question_index += 1; db.commit()`:
the row whose (unique) `session_id` matches is bumped, others unchanged. -/
def bumpRow (sid : String) (s : ChatSession) : ChatSession :=
  if s.session_id == sid then { s with question_index := s.question_index + 1 } else s

/-- `session_obj.question_index += 1; db.commit()` on the looked-up row. -/
def bumpCursor (db : DB) (sid : String) : DB :=
  { db with chat_sessions := db.chat_sessions.map (bumpRow sid) }

/-- Insertion step of the ascending-by-id sort used to model
`order_by(ChatLog.id.asc())`. -/
def insertById (x : ChatLog) : List ChatLog → List ChatLog
  | [] => [x]
  | y :: ys => if x.id ≤ y.id then x :: y :: ys else y :: insertById x ys

/-- `order_by(ChatLog.id.asc())`: sort ascending by primary key. -/
def orderByIdAsc (l : List ChatLog) : List ChatLog :=
  l.foldr insertById []

/-- `db.query(ChatLog).filter(ChatLog.session_id == sid).order_by(ChatLog.id.asc()).all()`. -/
def logsFor (db : DB) (sid : String) : List ChatLog :=
  orderByIdAsc (db.chat_logs.filter (fun l => l.session_id == sid))

/-- Insertion step of the descending-by-day sort used to model
`order_by(ScreenTimeLog.date.desc())`. -/
def insertByDayDesc (x : ScreenTimeLog) : List ScreenTimeLog → List ScreenTimeLog
  | [] => [x]
  | y :: ys => if y.day ≤ x.day then x :: y :: ys else y :: insertByDayDesc x ys

/-- `order_by(ScreenTimeLog.date.desc())`: sort descending by day. -/
def orderByDateDesc (l : List ScreenTimeLog) : List ScreenTimeLog :=
  l.foldr insertByDayDesc []

/-! ## POST /chat -/

/-- Result of one `POST /chat` call.  `response = some r` models the JSON
body containing a response field with value r; `response = none` models a Python
exception escaping the handler.  `closed` records whether `db.close()` ran.
`sent` is the message list posted to the completion API, when the free-form
branch performed (or attempted) that post. -/
structure ChatResult where
  response : Option String
  db : DB
  closed : Bool
  sent : Option (List Message)
deriving Repr

/-- The `data["messages"]` list of the free-form branch: the fixed system
instruction, then the history retrieved before the new user turn was
inserted, then the new user message. -/
def promptMessages (db : DB) (req : ChatRequest) : List Message :=
  Message.mk "system" SYSTEM_PROMPT ::
    ((logsFor db req.session_id).map (fun l => Message.mk l.role l.content)
      ++ [Message.mk "user" req.message])

/-- Lines 107-151 of src/main.py: the body of `chat` after the session row
has been looked up or created. -/
def chatWith (req : ChatRequest) (db : DB) (api : ApiResult)
    (session_obj : ChatSession) : ChatResult :=
  if h : session_obj.question_index < QUESTIONS.length then
    let db1 := appendLog db req.session_id "user" req.message
    let response_text := QUESTIONS.get ⟨session_obj.question_index, h⟩
    let db2 := bumpCursor db1 req.session_id
    let db3 := appendLog db2 req.session_id "assistant" response_text
    { response := some response_text, db := db3, closed := true, sent := none }
  else
    let messages := promptMessages db req
    let db1 := appendLog db req.session_id "user" req.message
    match api with
    | ApiResult.raises =>
        { response := none, db := db1, closed := false, sent := some messages }
    | ApiResult.response status body =>
        if status ≠ 200 then
          { response := some ("APIエラー: " ++ toString status), db := db1,
            closed := true, sent := some messages }
        else
          let assistant_reply := body.getD "AIの返答取得エラー"
          { response := some assistant_reply,
            db := appendLog db1 req.session_id "assistant" assistant_reply,
            closed := true, sent := some messages }

/-- Lines 100-105 of src/main.py: look up the session row, creating it with
cursor 0 and the default title when absent. -/
def lookupOrCreate (db : DB) (sid : String) : ChatSession × DB :=
  match findSession db sid with
  | some s => (s, db)
  | none =>
      let s : ChatSession := ⟨db.nextSessionId, sid, "セッション " ++ sid, 0⟩
      (s, { db with chat_sessions := db.chat_sessions ++ [s],
                    nextSessionId := db.nextSessionId + 1 })

/-- `POST /chat` (lines 97-151 of src/main.py). -/
def chat (req : ChatRequest) (db : DB) (api : ApiResult) : ChatResult :=
  let sd := lookupOrCreate db req.session_id
  chatWith req sd.2 api sd.1

/-! ## GET /history/{session_id} -/

structure HistoryResult where
  history : List Message
  closed : Bool
deriving Repr, DecidableEq

/-- `GET /history/{session_id}` (lines 154-159 of src/main.py). -/
def get_history (session_id : String) (db : DB) : HistoryResult :=
  { history := (logsFor db session_id).map (fun l => Message.mk l.role l.content),
    closed := true }

/-! ## POST /sessions and GET /sessions -/

/-- Outcome of `POST /sessions`: either the created row is returned, or the
UNIQUE constraint on `chat_sessions.session_id` makes `db.commit()` raise
`IntegrityError` (the row is not persisted and the handler aborts). -/
inductive CreateOutcome where
  | created : ChatSession → CreateOutcome
  | integrityError : CreateOutcome
deriving Repr, DecidableEq

structure CreateResult where
  outcome : CreateOutcome
  db : DB
  closed : Bool
deriving Repr

/-- `POST /sessions` (lines 162-170 of src/main.py). -/
def create_session (session : ChatSessionCreate) (db : DB) : CreateResult :=
  match findSession db session.session_id with
  | some _ => { outcome := CreateOutcome.integrityError, db := db, closed := false }
  | none =>
      let row : ChatSession := ⟨db.nextSessionId, session.session_id, session.title, 0⟩
      { outcome := CreateOutcome.created row,
        db := { db with chat_sessions := db.chat_sessions ++ [row],
                        nextSessionId := db.nextSessionId + 1 },
        closed := true }

structure SessionsResult where
  sessions : List ChatSession
  closed : Bool
deriving Repr, DecidableEq

/-- `GET /sessions` (lines 173-178 of src/main.py). -/
def get_sessions (db : DB) : SessionsResult :=
  { sessions := db.chat_sessions, closed := true }

/-! ## POST /screen_time -/

structure ScreenTimeResult where
  log_id : Nat
  db : DB
  closed : Bool
deriving Repr

/-- `POST /screen_time` (lines 181-195 of src/main.py); `today` stands for
`date.today()`. -/
def send_screen_time (data : ScreenTimeInput) (session_id : String) (today : Nat)
    (db : DB) : ScreenTimeResult :=
  let log : ScreenTimeLog :=
    ⟨db.nextScreenId, session_id, today, data.study_time, data.sns_time, data.game_time⟩
  { log_id := db.nextScreenId,
    db := { db with screen_time_logs := db.screen_time_logs ++ [log],
                    nextScreenId := db.nextScreenId + 1 },
    closed := true }

/-! ## POST /plan_schedule -/

structure PlanResult where
  response : Option String
  db : DB
  closed : Bool
  sent : Option (List Message)
deriving Repr

/-- The prompt string built by `plan_schedule` from the most recent
screen-time row, mirroring the two f-strings of lines 205-212. -/
def planPrompt (message : String) : List ScreenTimeLog → String
  | recent :: _ =>
      "\nあなたは勉強アドバイザーです。\nユーザーは昨日 " ++ toString recent.study_time
        ++ "時間勉強し、SNS " ++ toString recent.sns_time ++ "時間、ゲーム "
        ++ toString recent.game_time ++ "時間使いました。\nユーザーの希望は「"
        ++ message ++ "」です。\n会話形式で、無理なく勉強スケジュールを決める提案をしてください。\n"
  | [] => "ユーザーの希望: " ++ message ++ "\n会話形式でスケジュール提案をしてください。"

/-- `POST /plan_schedule` (lines 198-232 of src/main.py). -/
def plan_schedule (message session_id : String) (db : DB) (api : ApiResult) : PlanResult :=
  let logs := orderByDateDesc
    (db.screen_time_logs.filter (fun l => l.session_id == session_id))
  let prompt := planPrompt message logs
  let sentMessages := [Message.mk "system" prompt]
  match api with
  | ApiResult.raises =>
      { response := none, db := db, closed := false, sent := some sentMessages }
  | ApiResult.response status body =>
      if status ≠ 200 then
        { response := some ("APIエラー: " ++ toString status), db := db,
          closed := true, sent := some sentMessages }
      else
        { response := some (body.getD "AIの返答取得エラー"), db := db,
          closed := true, sent := some sentMessages }

/-! ## Sequencing and observation helpers -/

/-- A sequence of `POST /chat` calls for one session, each with the same
external-API behaviour; returns the per-call results and the final database. -/
def runChats (sid : String) (msgs : List String) (api : ApiResult) (db : DB) :
    List ChatResult × DB :=
  match msgs with
  | [] => ([], db)
  | m :: rest =>
      let r := chat ⟨m, sid⟩ db api
      let p := runChats sid rest api r.db
      (r :: p.1, p.2)

/-- A sequence of raw Conversation-Store appends
(session_id, role, content), the store operation every handler writes turns
with. -/
def appendTurns (db : DB) (ts : List (String × String × String)) : DB :=
  ts.foldl (fun d t => appendLog d t.1 t.2.1 t.2.2) db

/-- The onboarding cursor of a session, when its row exists. -/
def cursorOf (db : DB) (sid : String) : Option Nat :=
  (findSession db sid).map (fun s => s.question_index)

/-! ## Store invariants -/

/-- `chat_logs` is strictly ascending by primary key and every key is below
the auto-increment counter: what SQLite guarantees for an append-only table. -/
def LogsSorted (db : DB) : Prop :=
  db.chat_logs.Pairwise (fun a b => a.id < b.id) ∧
    ∀ l ∈ db.chat_logs, l.id < db.nextLogId

/-- The UNIQUE constraint on `chat_sessions.session_id`. -/
def SessionsUnique (db : DB) : Prop :=
  db.chat_sessions.Pairwise (fun a b => a.session_id ≠ b.session_id)

instance (db : DB) : Decidable (LogsSorted db) := by
  unfold LogsSorted; infer_instance

instance (db : DB) : Decidable (SessionsUnique db) := by
  unfold SessionsUnique; infer_instance

/-! ## Basic lemmas about the store primitives -/

lemma bumpRow_session_id (sid : String) (s : ChatSession) :
    (bumpRow sid s).session_id = s.session_id := by
  unfold bumpRow; split <;> rfl

lemma findSession_appendLog (db : DB) (sid s r c : String) :
    findSession (appendLog db s r c) sid = findSession db sid := rfl

lemma find?_map_bumpRow (sid : String) :
    ∀ (l : List ChatSession) (s : ChatSession),
      l.find? (fun x => x.session_id == sid) = some s →
      (l.map (bumpRow sid)).find? (fun x => x.session_id == sid)
        = some (bumpRow sid s) := by
  intro l
  induction l with
  | nil => intro s h; simp at h
  | cons a t ih =>
      intro s h
      cases ha : (a.session_id == sid) with
      | true =>
          simp only [List.find?_cons, ha] at h
          injection h with h; subst h
          simp only [List.map_cons, List.find?_cons, bumpRow_session_id, ha]
      | false =>
          simp only [List.find?_cons, ha] at h
          simp only [List.map_cons, List.find?_cons, bumpRow_session_id, ha]
          exact ih s h

lemma findSession_bumpCursor_self (db : DB) (sid : String) (s : ChatSession)
    (h : findSession db sid = some s) :
    findSession (bumpCursor db sid) sid
      = some { s with question_index := s.question_index + 1 } := by
  have h' : db.chat_sessions.find? (fun x => x.session_id == sid) = some s := h
  have hp0 := List.find?_some h'
  have hp : (s.session_id == sid) = true := hp0
  have hm := find?_map_bumpRow sid db.chat_sessions s h'
  show (db.chat_sessions.map (bumpRow sid)).find? (fun x => x.session_id == sid)
      = some { s with question_index := s.question_index + 1 }
  rw [hm]
  unfold bumpRow
  rw [if_pos hp]

lemma findSession_appendSession (db : DB) (row : ChatSession) (n : Nat)
    (h : findSession db row.session_id = none) :
    findSession
      { db with chat_sessions := db.chat_sessions ++ [row], nextSessionId := n }
      row.session_id = some row := by
  unfold findSession at h ⊢
  simp only
  rw [List.find?_append, h]
  simp [List.find?]

lemma lookupOrCreate_found (db : DB) (sid : String) (s : ChatSession)
    (h : findSession db sid = some s) : lookupOrCreate db sid = (s, db) := by
  unfold lookupOrCreate; rw [h]

lemma lookupOrCreate_fresh (db : DB) (sid : String)
    (h : findSession db sid = none) :
    lookupOrCreate db sid =
      (⟨db.nextSessionId, sid, "セッション " ++ sid, 0⟩,
       { db with
           chat_sessions :=
             db.chat_sessions ++ [⟨db.nextSessionId, sid, "セッション " ++ sid, 0⟩],
           nextSessionId := db.nextSessionId + 1 }) := by
  unfold lookupOrCreate; rw [h]

lemma chat_found (req : ChatRequest) (db : DB) (api : ApiResult) (s : ChatSession)
    (h : findSession db req.session_id = some s) :
    chat req db api = chatWith req db api s := by
  unfold chat; rw [lookupOrCreate_found db req.session_id s h]

/-! ## Branch equations for chatWith -/

lemma chatWith_onboarding (req : ChatRequest) (db : DB) (api : ApiResult)
    (s : ChatSession) (h : s.question_index < QUESTIONS.length) :
    chatWith req db api s =
      { response := some (QUESTIONS.get ⟨s.question_index, h⟩),
        db := appendLog
                (bumpCursor (appendLog db req.session_id "user" req.message)
                  req.session_id)
                req.session_id "assistant" (QUESTIONS.get ⟨s.question_index, h⟩),
        closed := true, sent := none } := by
  unfold chatWith; rw [dif_pos h]

lemma chatWith_raises (req : ChatRequest) (db : DB) (s : ChatSession)
    (h : ¬ s.question_index < QUESTIONS.length) :
    chatWith req db ApiResult.raises s =
      { response := none, db := appendLog db req.session_id "user" req.message,
        closed := false, sent := some (promptMessages db req) } := by
  unfold chatWith; rw [dif_neg h]

lemma chatWith_status_error (req : ChatRequest) (db : DB) (s : ChatSession)
    (status : Nat) (body : Option String)
    (h : ¬ s.question_index < QUESTIONS.length) (hstatus : status ≠ 200) :
    chatWith req db (ApiResult.response status body) s =
      { response := some ("APIエラー: " ++ toString status),
        db := appendLog db req.session_id "user" req.message,
        closed := true, sent := some (promptMessages db req) } := by
  unfold chatWith; rw [dif_neg h]; simp [hstatus]

lemma chatWith_success (req : ChatRequest) (db : DB) (s : ChatSession)
    (body : Option String) (h : ¬ s.question_index < QUESTIONS.length) :
    chatWith req db (ApiResult.response 200 body) s =
      { response := some (body.getD "AIの返答取得エラー"),
        db := appendLog (appendLog db req.session_id "user" req.message)
                req.session_id "assistant" (body.getD "AIの返答取得エラー"),
        closed := true, sent := some (promptMessages db req) } := by
  unfold chatWith; rw [dif_neg h]; simp

/-! ## Step lemmas for chat -/

lemma chat_onboarding_step (db : DB) (req : ChatRequest) (api : ApiResult)
    (s : ChatSession) (hs : findSession db req.session_id = some s)
    (h : s.question_index < QUESTIONS.length) :
    (chat req db api).response = some (QUESTIONS.get ⟨s.question_index, h⟩) ∧
    findSession (chat req db api).db req.session_id
      = some { s with question_index := s.question_index + 1 } ∧
    (chat req db api).sent = none ∧ (chat req db api).closed = true := by
  rw [chat_found req db api s hs, chatWith_onboarding req db api s h]
  refine ⟨rfl, ?_, rfl, rfl⟩
  exact findSession_bumpCursor_self
    (appendLog db req.session_id "user" req.message) req.session_id s hs

lemma chat_fresh_step (db : DB) (req : ChatRequest) (api : ApiResult)
    (hfresh : findSession db req.session_id = none) :
    (chat req db api).response = some (QUESTIONS.get ⟨0, by decide⟩) ∧
    findSession (chat req db api).db req.session_id
      = some ⟨db.nextSessionId, req.session_id, "セッション " ++ req.session_id, 1⟩ := by
  have hfind := findSession_appendSession db
    ⟨db.nextSessionId, req.session_id, "セッション " ++ req.session_id, 0⟩
    (db.nextSessionId + 1) hfresh
  have heq : chat req db api =
      chat req
        { db with
            chat_sessions := db.chat_sessions ++
              [⟨db.nextSessionId, req.session_id, "セッション " ++ req.session_id, 0⟩],
            nextSessionId := db.nextSessionId + 1 }
        api := by
    unfold chat
    rw [lookupOrCreate_fresh db req.session_id hfresh,
        lookupOrCreate_found _ req.session_id _ hfind]
  have hstep := chat_onboarding_step
    { db with
        chat_sessions := db.chat_sessions ++
          [⟨db.nextSessionId, req.session_id, "セッション " ++ req.session_id, 0⟩],
        nextSessionId := db.nextSessionId + 1 }
    req api
    ⟨db.nextSessionId, req.session_id, "セッション " ++ req.session_id, 0⟩
    hfind (show (0:Nat) < QUESTIONS.length by decide)
  rw [heq]
  exact ⟨hstep.1, hstep.2.1⟩

lemma chatWith_freeform_observation (req : ChatRequest) (db : DB) (api : ApiResult)
    (s : ChatSession) (h : ¬ s.question_index < QUESTIONS.length) :
    (chatWith req db api s).db.chat_sessions = db.chat_sessions ∧
    (chatWith req db api s).sent = some (promptMessages db req) := by
  cases api with
  | raises => rw [chatWith_raises req db s h]; exact ⟨rfl, rfl⟩
  | response status body =>
      by_cases hst : status = 200
      · subst hst; rw [chatWith_success req db s body h]; exact ⟨rfl, rfl⟩
      · rw [chatWith_status_error req db s status body h hst]; exact ⟨rfl, rfl⟩

/-! ## The ascending-by-id query is the identity on an append-only table -/

lemma insertById_sorted_head (x : ChatLog) (l : List ChatLog)
    (h : ∀ b ∈ l, x.id < b.id) : insertById x l = x :: l := by
  cases l with
  | nil => rfl
  | cons b t =>
      unfold insertById
      rw [if_pos (le_of_lt (h b (by simp)))]

lemma orderByIdAsc_of_pairwise (l : List ChatLog)
    (h : l.Pairwise (fun a b => a.id < b.id)) : orderByIdAsc l = l := by
  induction l with
  | nil => rfl
  | cons a t ih =>
      obtain ⟨ha, ht⟩ := List.pairwise_cons.mp h
      show insertById a (orderByIdAsc t) = a :: t
      rw [ih ht, insertById_sorted_head a t ha]

lemma logsSorted_appendLog (db : DB) (sid r c : String) (h : LogsSorted db) :
    LogsSorted (appendLog db sid r c) := by
  obtain ⟨h1, h2⟩ := h
  constructor
  · show List.Pairwise (fun a b : ChatLog => a.id < b.id)
        (db.chat_logs ++ [(⟨db.nextLogId, sid, r, c⟩ : ChatLog)])
    rw [List.pairwise_append]
    refine ⟨h1, List.pairwise_singleton _ _, ?_⟩
    intro a ha b hb
    simp only [List.mem_singleton] at hb
    subst hb
    exact h2 a ha
  · intro l hl
    show l.id < db.nextLogId + 1
    rcases List.mem_append.mp hl with hl | hl
    · exact Nat.lt_succ_of_lt (h2 l hl)
    · simp only [List.mem_singleton] at hl
      subst hl
      exact Nat.lt_succ_self _

lemma filter_pairwise_ids (db : DB) (sid : String)
    (h1 : db.chat_logs.Pairwise (fun a b => a.id < b.id)) :
    (db.chat_logs.filter (fun l => l.session_id == sid)).Pairwise
      (fun a b => a.id < b.id) :=
  List.Pairwise.sublist (List.filter_sublist db.chat_logs) h1

/-- Appending one turn extends the history query for its session by that
one row and leaves every other session's history unchanged. -/
lemma logsFor_appendLog (db : DB) (s r c sid : String) (h : LogsSorted db) :
    logsFor (appendLog db s r c) sid
      = logsFor db sid
          ++ (if s == sid then [⟨db.nextLogId, s, r, c⟩] else []) := by
  obtain ⟨h1, h2⟩ := h
  have hpf := filter_pairwise_ids db sid h1
  have hl : logsFor (appendLog db s r c) sid
      = orderByIdAsc ((db.chat_logs ++ [(⟨db.nextLogId, s, r, c⟩ : ChatLog)]).filter
          (fun l => l.session_id == sid)) := rfl
  rw [hl, List.filter_append]
  by_cases hs : (s == sid) = true
  · rw [if_pos hs]
    have hone : ([⟨db.nextLogId, s, r, c⟩] : List ChatLog).filter
        (fun l => l.session_id == sid) = [⟨db.nextLogId, s, r, c⟩] := by
      simp [hs]
    rw [hone]
    have hp2 : List.Pairwise (fun a b : ChatLog => a.id < b.id)
        ((db.chat_logs.filter (fun l => l.session_id == sid))
          ++ [(⟨db.nextLogId, s, r, c⟩ : ChatLog)]) := by
      rw [List.pairwise_append]
      refine ⟨hpf, List.pairwise_singleton _ _, ?_⟩
      intro a ha b hb
      simp only [List.mem_singleton] at hb
      subst hb
      exact h2 a (List.mem_of_mem_filter ha)
    rw [orderByIdAsc_of_pairwise _ hp2]
    unfold logsFor
    rw [orderByIdAsc_of_pairwise _ hpf]
  · rw [if_neg hs]
    have hnone : ([⟨db.nextLogId, s, r, c⟩] : List ChatLog).filter
        (fun l => l.session_id == sid) = [] := by
      simp [hs]
    rw [hnone, List.append_nil, List.append_nil]
    rfl

/-! ## Cursor transition of one chat call -/

lemma cursorOf_chat (db : DB) (req : ChatRequest) (api : ApiResult) (k : Nat)
    (hk : cursorOf db req.session_id = some k) :
    cursorOf (chat req db api).db req.session_id
      = some (if k < QUESTIONS.length then k + 1 else k) ∧
    (QUESTIONS.length ≤ k → (chat req db api).sent ≠ none) := by
  obtain ⟨s, hs, hks⟩ :
      ∃ s, findSession db req.session_id = some s ∧ s.question_index = k := by
    unfold cursorOf at hk
    cases hfind : findSession db req.session_id with
    | none => rw [hfind] at hk; simp at hk
    | some s => rw [hfind] at hk; simp at hk; exact ⟨s, rfl, hk⟩
  subst hks
  by_cases h : s.question_index < QUESTIONS.length
  · obtain ⟨_, hfind, _, _⟩ := chat_onboarding_step db req api s hs h
    constructor
    · unfold cursorOf
      rw [hfind, if_pos h]
      rfl
    · intro hle
      exact absurd h (by omega)
  · have hobs := chatWith_freeform_observation req db api s h
    rw [chat_found req db api s hs]
    constructor
    · unfold cursorOf findSession
      rw [hobs.1, if_neg h]
      have hs' : db.chat_sessions.find? (fun x => x.session_id == req.session_id)
          = some s := hs
      rw [hs']
      rfl
    · intro _
      rw [hobs.2]
      simp

/-! ## Concrete databases used by the witnesses and counterexamples -/

/-- A session row that has finished onboarding (cursor = 6 = question count). -/
def sessFF : ChatSession := ⟨1, "s", "セッション s", 6⟩

/-- A database whose session "s" is in free-form mode, with two stored turns. -/
def dbFF : DB :=
  { chat_logs := [⟨1, "s", "user", "こんにちは"⟩, ⟨2, "s", "assistant", "やあ！"⟩],
    chat_sessions := [sessFF],
    screen_time_logs := [], schedule_plans := [],
    nextLogId := 3, nextSessionId := 2, nextScreenId := 1 }

/-- A database holding one turn of an unrelated session. -/
def dbOther : DB :=
  { chat_logs := [⟨1, "other", "user", "x"⟩],
    chat_sessions := [], screen_time_logs := [], schedule_plans := [],
    nextLogId := 2, nextSessionId := 1, nextScreenId := 1 }

/-! ## Sequencing equations -/

lemma runChats_nil (sid : String) (api : ApiResult) (db : DB) :
    runChats sid [] api db = ([], db) := rfl

lemma runChats_cons (sid m : String) (msgs : List String) (api : ApiResult) (db : DB) :
    runChats sid (m :: msgs) api db =
      ((chat ⟨m, sid⟩ db api) :: (runChats sid msgs api (chat ⟨m, sid⟩ db api).db).1,
       (runChats sid msgs api (chat ⟨m, sid⟩ db api).db).2) := rfl

/-- While onboarding is running, a block of calls answers the questions from
the current cursor onward and advances the cursor by the number of calls. -/
lemma runChats_onboarding (sid : String) (api : ApiResult) :
    ∀ (msgs : List String) (db : DB) (s : ChatSession),
      findSession db sid = some s →
      s.question_index + msgs.length ≤ QUESTIONS.length →
      (∀ i, i < msgs.length →
        ((runChats sid msgs api db).1.get? i).map ChatResult.response
          = (QUESTIONS.get? (s.question_index + i)).map some) ∧
      cursorOf (runChats sid msgs api db).2 sid
        = some (s.question_index + msgs.length) := by
  intro msgs
  induction msgs with
  | nil =>
      intro db s hs _
      refine ⟨fun i hi => absurd hi (by simp), ?_⟩
      rw [runChats_nil]
      unfold cursorOf
      rw [hs]
      rfl
  | cons m rest ih =>
      intro db s hs hle
      have hq : s.question_index < QUESTIONS.length := by
        simp only [List.length_cons] at hle; omega
      obtain ⟨hresp, hfind, _, _⟩ := chat_onboarding_step db ⟨m, sid⟩ api s hs hq
      have hle' : ({ s with question_index := s.question_index + 1 } :
          ChatSession).question_index + rest.length ≤ QUESTIONS.length := by
        show s.question_index + 1 + rest.length ≤ QUESTIONS.length
        simp only [List.length_cons] at hle; omega
      obtain ⟨hall, hcur⟩ := ih (chat ⟨m, sid⟩ db api).db
        { s with question_index := s.question_index + 1 } hfind hle'
      constructor
      · intro i hi
        cases i with
        | zero =>
            rw [runChats_cons]
            show some ((chat ⟨m, sid⟩ db api).response)
              = (QUESTIONS.get? (s.question_index + 0)).map some
            rw [hresp, Nat.add_zero, List.get?_eq_get hq]
            rfl
        | succ j =>
            have hj : j < rest.length := by
              simp only [List.length_cons] at hi; omega
            have h1 := hall j hj
            rw [runChats_cons]
            show ((runChats sid rest api (chat ⟨m, sid⟩ db api).db).1.get? j).map
                ChatResult.response
              = (QUESTIONS.get? (s.question_index + (j + 1))).map some
            rw [show s.question_index + (j + 1) = s.question_index + 1 + j by omega]
            exact h1
      · rw [runChats_cons]
        show cursorOf (runChats sid rest api (chat ⟨m, sid⟩ db api).db).2 sid
          = some (s.question_index + (m :: rest).length)
        rw [hcur]
        show some (s.question_index + 1 + rest.length)
          = some (s.question_index + (rest.length + 1))
        congr 1
        omega

/-- Claim C1: for a fresh session identifier (no ChatSession row), the first
calls to /chat, whatever the message contents and however the external API
would behave, answer with the fixed questions in list order (the i-th call
returns QUESTIONS[i]), and after n ≤ 6 such calls the cursor equals n. -/
theorem chat_onboarding_questions_in_order (db : DB) (sid : String)
    (msgs : List String) (api : ApiResult)
    (hfresh : findSession db sid = none) (hlen : msgs.length ≤ QUESTIONS.length) :
    (∀ i, i < msgs.length →
      ((runChats sid msgs api db).1.get? i).map ChatResult.response
        = (QUESTIONS.get? i).map some) ∧
    (msgs ≠ [] →
      cursorOf (runChats sid msgs api db).2 sid = some msgs.length) := by
  cases msgs with
  | nil => exact ⟨fun i hi => absurd hi (by simp), fun hne => absurd rfl hne⟩
  | cons m rest =>
      obtain ⟨hresp, hfind⟩ := chat_fresh_step db ⟨m, sid⟩ api hfresh
      have hle' : ((⟨db.nextSessionId, sid, "セッション " ++ sid, 1⟩ :
          ChatSession)).question_index + rest.length ≤ QUESTIONS.length := by
        show 1 + rest.length ≤ QUESTIONS.length
        simp only [List.length_cons] at hlen; omega
      obtain ⟨hall, hcur⟩ := runChats_onboarding sid api rest
        (chat ⟨m, sid⟩ db api).db
        ⟨db.nextSessionId, sid, "セッション " ++ sid, 1⟩ hfind hle'
      constructor
      · intro i hi
        cases i with
        | zero =>
            rw [runChats_cons]
            show some ((chat ⟨m, sid⟩ db api).response) = (QUESTIONS.get? 0).map some
            rw [hresp]
            rfl
        | succ j =>
            have hj : j < rest.length := by
              simp only [List.length_cons] at hi; omega
            have h1 := hall j hj
            rw [runChats_cons]
            show ((runChats sid rest api (chat ⟨m, sid⟩ db api).db).1.get? j).map
                ChatResult.response
              = (QUESTIONS.get? (j + 1)).map some
            rw [show (j + 1 : Nat) = 1 + j by omega]
            exact h1
      · intro _
        rw [runChats_cons]
        show cursorOf (runChats sid rest api (chat ⟨m, sid⟩ db api).db).2 sid
          = some (m :: rest).length
        rw [hcur]
        show some (1 + rest.length) = some (rest.length + 1)
        congr 1
        omega

/-- Witness for C1: on the empty database, the third of six calls for the
fresh session "s" returns QUESTIONS[2], and after the six calls the cursor
is 6. -/
theorem chat_onboarding_questions_in_order_witness :
    (((runChats "s" ["a", "b", "c", "d", "e", "f"] ApiResult.raises emptyDB).1.get? 2).map
        ChatResult.response = (QUESTIONS.get? 2).map some) ∧
    cursorOf (runChats "s" ["a", "b", "c", "d", "e", "f"] ApiResult.raises emptyDB).2 "s"
      = some 6 := by
  have h := chat_onboarding_questions_in_order emptyDB "s" ["a", "b", "c", "d", "e", "f"]
    ApiResult.raises (by decide) (by decide)
  exact ⟨h.1 2 (by decide), h.2 (by decide)⟩

/-- Claim C2: across any sequence of /chat calls, a session's onboarding
cursor never decreases and stays bounded by the question count, and once it
equals the question count every call leaves it unchanged and takes the
free-form path (it posts to the external API instead of serving a canned
question). -/
theorem chat_cursor_monotone_bounded_permanent (db : DB) (sid : String)
    (msgs : List String) (api : ApiResult) (k : Nat)
    (hk : cursorOf db sid = some k) (hb : k ≤ QUESTIONS.length) :
    ∃ k', cursorOf (runChats sid msgs api db).2 sid = some k' ∧
      k ≤ k' ∧ k' ≤ QUESTIONS.length ∧
      (QUESTIONS.length ≤ k →
        k' = k ∧ ∀ r ∈ (runChats sid msgs api db).1, r.sent ≠ none) := by
  induction msgs generalizing db k with
  | nil =>
      refine ⟨k, by rw [runChats_nil]; exact hk, le_refl k, hb, fun hle => ⟨rfl, ?_⟩⟩
      intro r hr
      rw [runChats_nil] at hr
      simp at hr
  | cons m rest ih =>
      have hk' : cursorOf db (⟨m, sid⟩ : ChatRequest).session_id = some k := hk
      obtain ⟨hc, hsent⟩ := cursorOf_chat db ⟨m, sid⟩ api k hk'
      have hc' : cursorOf (chat ⟨m, sid⟩ db api).db sid
          = some (if k < QUESTIONS.length then k + 1 else k) := hc
      have hb1 : (if k < QUESTIONS.length then k + 1 else k) ≤ QUESTIONS.length := by
        split <;> omega
      obtain ⟨k', h1, h2, h3, h4⟩ := ih (chat ⟨m, sid⟩ db api).db
        (if k < QUESTIONS.length then k + 1 else k) hc' hb1
      refine ⟨k', ?_, ?_, h3, ?_⟩
      · rw [runChats_cons]; exact h1
      · have hstep : k ≤ (if k < QUESTIONS.length then k + 1 else k) := by
          split <;> omega
        omega
      · intro hle
        have hkk : (if k < QUESTIONS.length then k + 1 else k) = k :=
          if_neg (by omega)
        have h4' := h4 (by rw [hkk]; exact hle)
        refine ⟨by rw [h4'.1, hkk], ?_⟩
        intro r hr
        rw [runChats_cons] at hr
        rcases List.mem_cons.mp hr with hr | hr
        · subst hr; exact hsent hle
        · exact h4'.2 r hr

/-- Witness for C2: session "s" of dbFF has cursor 6 = question count; after
one further call (external API answering 500) the cursor is still 6. -/
theorem chat_cursor_monotone_bounded_permanent_witness :
    cursorOf (runChats "s" ["勉強の相談"] (ApiResult.response 500 none) dbFF).2 "s"
      = some 6 := by
  obtain ⟨k', h1, h2, h3, h4⟩ := chat_cursor_monotone_bounded_permanent dbFF "s"
    ["勉強の相談"] (ApiResult.response 500 none) 6 (by decide) (by decide)
  rw [(h4 (by decide)).1] at h1
  exact h1

/-- Claim C3: in free-form mode a non-success status from the external API
yields a success-shaped body whose response field is the descriptive error
string, db.close() runs, and the only row added to the store is the user
turn — no assistant-role turn is appended by that call. -/
theorem chat_api_error_success_envelope (db : DB) (req : ChatRequest)
    (status : Nat) (body : Option String) (s : ChatSession)
    (hs : findSession db req.session_id = some s)
    (hff : QUESTIONS.length ≤ s.question_index) (hstatus : status ≠ 200) :
    (chat req db (ApiResult.response status body)).response
      = some ("APIエラー: " ++ toString status) ∧
    (chat req db (ApiResult.response status body)).db.chat_logs
      = db.chat_logs ++ [⟨db.nextLogId, req.session_id, "user", req.message⟩] ∧
    (chat req db (ApiResult.response status body)).closed = true ∧
    ∀ l ∈ (chat req db (ApiResult.response status body)).db.chat_logs,
      l.role = "assistant" → l ∈ db.chat_logs := by
  have hlt : ¬ s.question_index < QUESTIONS.length := by omega
  rw [chat_found req db _ s hs, chatWith_status_error req db s status body hlt hstatus]
  refine ⟨rfl, rfl, rfl, ?_⟩
  intro l hl hrole
  rcases List.mem_append.mp hl with h | h
  · exact h
  · simp only [List.mem_singleton] at h
    subst h
    have hx : ("user" : String) = "assistant" := hrole
    exact absurd hx (by decide)

/-- Witness for C3: on dbFF (session "s" in free-form mode) a 500-status
reply is turned into the error-string payload with the connection closed. -/
theorem chat_api_error_success_envelope_witness :
    (chat ⟨"相談です", "s"⟩ dbFF (ApiResult.response 500 none)).response
      = some ("APIエラー: " ++ toString 500) ∧
    (chat ⟨"相談です", "s"⟩ dbFF (ApiResult.response 500 none)).closed = true := by
  have h := chat_api_error_success_envelope dbFF ⟨"相談です", "s"⟩ 500 none sessFF
    (by decide) (by decide) (by decide)
  exact ⟨h.1, h.2.2.1⟩

/-- Counterexample to C4 as stated: with a success status and a malformed
body, the handler appends an assistant turn holding the fixed error string
to the conversation store — the assistant-turn append is not restricted to
successful extractions, and the malformed-body case is therefore not
handled like the non-success-status case, which appends no assistant turn
(third conjunct). -/
theorem chat_malformed_body_appends_error_turn :
    (chat ⟨"相談", "s"⟩ dbFF (ApiResult.response 200 none)).response
      = some "AIの返答取得エラー" ∧
    (chat ⟨"相談", "s"⟩ dbFF (ApiResult.response 200 none)).db.chat_logs
      = dbFF.chat_logs ++
          [⟨3, "s", "user", "相談"⟩, ⟨4, "s", "assistant", "AIの返答取得エラー"⟩] ∧
    (chat ⟨"相談", "s"⟩ dbFF (ApiResult.response 500 none)).db.chat_logs
      = dbFF.chat_logs ++ [⟨3, "s", "user", "相談"⟩] := by
  refine ⟨by decide, by decide, by decide⟩

/-- Claim C4 (amended): in free-form mode, a success status with a
malformed body is answered with the fixed error string instead of raising,
and the returned text — the extracted reply on a well-formed body, the
error string on a malformed one — is appended as an assistant turn on every
success-status path; only a non-success status skips the assistant append. -/
theorem chat_malformed_body_error_string (db : DB) (req : ChatRequest)
    (s : ChatSession) (hs : findSession db req.session_id = some s)
    (hff : QUESTIONS.length ≤ s.question_index) :
    ((chat req db (ApiResult.response 200 none)).response
        = some "AIの返答取得エラー" ∧
     (chat req db (ApiResult.response 200 none)).closed = true ∧
     (chat req db (ApiResult.response 200 none)).db.chat_logs
       = db.chat_logs ++
           [⟨db.nextLogId, req.session_id, "user", req.message⟩,
            ⟨db.nextLogId + 1, req.session_id, "assistant", "AIの返答取得エラー"⟩]) ∧
    (∀ reply : String,
      (chat req db (ApiResult.response 200 (some reply))).response = some reply ∧
      (chat req db (ApiResult.response 200 (some reply))).db.chat_logs
        = db.chat_logs ++
            [⟨db.nextLogId, req.session_id, "user", req.message⟩,
             ⟨db.nextLogId + 1, req.session_id, "assistant", reply⟩]) := by
  have hlt : ¬ s.question_index < QUESTIONS.length := by omega
  constructor
  · rw [chat_found req db _ s hs, chatWith_success req db s none hlt]
    refine ⟨rfl, rfl, ?_⟩
    simp [appendLog]
  · intro reply
    rw [chat_found req db _ s hs, chatWith_success req db s (some reply) hlt]
    refine ⟨rfl, ?_⟩
    simp [appendLog]

/-- Witness for C4 (amended): concrete malformed-body and success replies
on dbFF. -/
theorem chat_malformed_body_error_string_witness :
    (chat ⟨"相談", "s"⟩ dbFF (ApiResult.response 200 none)).response
      = some "AIの返答取得エラー" ∧
    (chat ⟨"相談", "s"⟩ dbFF (ApiResult.response 200 (some "おはよう"))).response
      = some "おはよう" := by
  have h := chat_malformed_body_error_string dbFF ⟨"相談", "s"⟩ sessFF
    (by decide) (by decide)
  exact ⟨h.1.1, (h.2 "おはよう").1⟩

/-- Claim C6: in free-form mode the message list posted to the completion
API is exactly one system instruction, then the stored history of the
session in creation order, then the new user message once — the new message
is not part of the history portion, which was read before the insert. -/
theorem chat_prompt_message_order (db : DB) (req : ChatRequest) (api : ApiResult)
    (s : ChatSession) (hs : findSession db req.session_id = some s)
    (hff : QUESTIONS.length ≤ s.question_index)
    (hsorted : db.chat_logs.Pairwise (fun a b => a.id < b.id)) :
    (chat req db api).sent
      = some (Message.mk "system" SYSTEM_PROMPT ::
          ((db.chat_logs.filter (fun l => l.session_id == req.session_id)).map
              (fun l => Message.mk l.role l.content)
            ++ [Message.mk "user" req.message])) := by
  have hlt : ¬ s.question_index < QUESTIONS.length := by omega
  rw [chat_found req db api s hs,
      (chatWith_freeform_observation req db api s hlt).2]
  unfold promptMessages logsFor
  rw [orderByIdAsc_of_pairwise _ (filter_pairwise_ids db req.session_id hsorted)]

/-- Witness for C6: the prompt built on dbFF for a new message. -/
theorem chat_prompt_message_order_witness :
    (chat ⟨"質問", "s"⟩ dbFF ApiResult.raises).sent
      = some (Message.mk "system" SYSTEM_PROMPT ::
          ((dbFF.chat_logs.filter (fun l => l.session_id == "s")).map
              (fun l => Message.mk l.role l.content)
            ++ [Message.mk "user" "質問"])) := by
  exact chat_prompt_message_order dbFF ⟨"質問", "s"⟩ ApiResult.raises sessFF
    (by decide) (by decide) (by decide)

/-- Claim C10: in free-form mode the user turn is written before the
external call, so both failure modes — a non-success status, and the post
itself raising — leave the history grown by exactly that one user turn. -/
theorem chat_user_turn_persisted_before_api_call (db : DB) (req : ChatRequest)
    (s : ChatSession) (hs : findSession db req.session_id = some s)
    (hff : QUESTIONS.length ≤ s.question_index) :
    (∀ status body, status ≠ 200 →
      (chat req db (ApiResult.response status body)).db.chat_logs
        = db.chat_logs ++ [⟨db.nextLogId, req.session_id, "user", req.message⟩]) ∧
    (chat req db ApiResult.raises).db.chat_logs
      = db.chat_logs ++ [⟨db.nextLogId, req.session_id, "user", req.message⟩] := by
  have hlt : ¬ s.question_index < QUESTIONS.length := by omega
  constructor
  · intro status body hstatus
    rw [chat_found req db _ s hs,
        chatWith_status_error req db s status body hlt hstatus]
    rfl
  · rw [chat_found req db _ s hs, chatWith_raises req db s hlt]
    rfl

/-- Witness for C10: on dbFF, a raising post still leaves the new user turn
in the store. -/
theorem chat_user_turn_persisted_before_api_call_witness :
    (chat ⟨"やあ", "s"⟩ dbFF ApiResult.raises).db.chat_logs
      = dbFF.chat_logs ++ [⟨3, "s", "user", "やあ"⟩] := by
  exact (chat_user_turn_persisted_before_api_call dbFF ⟨"やあ", "s"⟩ sessFF
    (by decide) (by decide)).2

/-! ## Claim C5: connection release -/

lemma chatWith_closed_of_isSome (req : ChatRequest) (db : DB) (api : ApiResult)
    (s : ChatSession)
    (h : ((chatWith req db api s).response).isSome = true) :
    (chatWith req db api s).closed = true := by
  by_cases hq : s.question_index < QUESTIONS.length
  · rw [chatWith_onboarding req db api s hq]
  · cases api with
    | raises => rw [chatWith_raises req db s hq] at h; simp at h
    | response status body =>
        by_cases hst : status = 200
        · subst hst; rw [chatWith_success req db s body hq]
        · rw [chatWith_status_error req db s status body hq hst]

/-- Counterexample to C5 as stated: a /chat call in free-form mode during
which requests.post raises exits the handler by exception (response = none,
an HTTP 500 at the framework level) without ever executing db.close() — the
connection is not released on this exit path, because the handler has no
try/finally around the external call. -/
theorem chat_raises_leaves_connection_open :
    (chat ⟨"やあ", "s"⟩ dbFF ApiResult.raises).closed = false ∧
    (chat ⟨"やあ", "s"⟩ dbFF ApiResult.raises).response = none := by
  exact ⟨by decide, by decide⟩

/-- Claim C5 (amended): every handler that returns a response (rather than
propagating an exception) has executed db.close() on that path; the paths
that exit by a raised exception — the completion post raising in chat and
plan_schedule, the UNIQUE-violation commit in create_session — do not
release the connection. -/
theorem handlers_release_on_return (db : DB) :
    (∀ req api, ((chat req db api).response).isSome = true →
      (chat req db api).closed = true) ∧
    (∀ sid, (get_history sid db).closed = true) ∧
    (∀ s, (create_session s db).outcome ≠ CreateOutcome.integrityError →
      (create_session s db).closed = true) ∧
    (get_sessions db).closed = true ∧
    (∀ data sid today, (send_screen_time data sid today db).closed = true) ∧
    (∀ m sid api, ((plan_schedule m sid db api).response).isSome = true →
      (plan_schedule m sid db api).closed = true) := by
  refine ⟨?_, fun sid => rfl, ?_, rfl, fun data sid today => rfl, ?_⟩
  · intro req api h
    unfold chat at h ⊢
    exact chatWith_closed_of_isSome req _ api _ h
  · intro s hne
    unfold create_session at hne ⊢
    cases hfind : findSession db s.session_id with
    | some t => rw [hfind] at hne; exact absurd rfl hne
    | none => rfl
  · intro m sid api h
    cases api with
    | raises =>
        have hx : (plan_schedule m sid db ApiResult.raises).response = none := rfl
        rw [hx] at h
        simp at h
    | response status body =>
        unfold plan_schedule
        split
        · rename_i heq
          cases heq
        · rename_i st bd heq
          injection heq with h1 h2
          subst h1
          split <;> rfl

/-- Witness for C5 (amended): each handler, at a concrete input on which it
returns, has closed the connection. -/
theorem handlers_release_on_return_witness :
    (chat ⟨"やあ", "s"⟩ dbFF (ApiResult.response 500 none)).closed = true ∧
    (get_history "s" dbFF).closed = true ∧
    (create_session ⟨"u", "新しい"⟩ dbFF).closed = true ∧
    (get_sessions dbFF).closed = true ∧
    (send_screen_time ⟨1.5, 2.0, 0.5⟩ "s" 1 dbFF).closed = true ∧
    (plan_schedule "相談" "s" dbFF (ApiResult.response 404 none)).closed = true := by
  obtain ⟨h1, h2, h3, h4, h5, h6⟩ := handlers_release_on_return dbFF
  exact ⟨h1 ⟨"やあ", "s"⟩ (ApiResult.response 500 none) (by decide),
         h2 "s", h3 ⟨"u", "新しい"⟩ (by decide), h4, h5 ⟨1.5, 2.0, 0.5⟩ "s" 1,
         h6 "相談" "s" (ApiResult.response 404 none) (by decide)⟩

/-! ## Claim C7: history returns the appended turns -/

lemma appendTurns_nil (db : DB) : appendTurns db [] = db := rfl

lemma appendTurns_cons (db : DB) (t : String × String × String)
    (ts : List (String × String × String)) :
    appendTurns db (t :: ts) = appendTurns (appendLog db t.1 t.2.1 t.2.2) ts := rfl

/-- Claim C7: GET /history returns exactly the turns appended for that
session, as role/content pairs, in append order — appends for other
sessions interleaved anywhere in the sequence do not appear. -/
theorem history_returns_appended_turns_in_order (db : DB) (sid : String)
    (ts : List (String × String × String)) (hinv : LogsSorted db) :
    (get_history sid (appendTurns db ts)).history
      = (get_history sid db).history
        ++ (ts.filter (fun t => t.1 == sid)).map (fun t => Message.mk t.2.1 t.2.2) := by
  induction ts generalizing db with
  | nil =>
      rw [appendTurns_nil]
      simp
  | cons t ts ih =>
      rw [appendTurns_cons,
          ih (appendLog db t.1 t.2.1 t.2.2) (logsSorted_appendLog db t.1 t.2.1 t.2.2 hinv)]
      have hstep : (get_history sid (appendLog db t.1 t.2.1 t.2.2)).history
          = (get_history sid db).history
            ++ (if t.1 == sid then [Message.mk t.2.1 t.2.2] else []) := by
        unfold get_history
        simp only
        rw [logsFor_appendLog db t.1 t.2.1 t.2.2 sid hinv, List.map_append]
        congr 1
        by_cases hts : (t.1 == sid) = true
        · rw [if_pos hts, if_pos hts]; rfl
        · rw [if_neg hts, if_neg hts]; rfl
      rw [hstep, List.append_assoc]
      congr 1
      cases hts : (t.1 == sid) with
      | true => simp [List.filter_cons, hts]
      | false => simp [List.filter_cons, hts]

/-- Witness for C7: three appends, one for another session, read back for
session "s". -/
theorem history_returns_appended_turns_in_order_witness :
    (get_history "s" (appendTurns emptyDB
        [("s", "user", "A"), ("t", "user", "X"), ("s", "assistant", "B")])).history
      = [Message.mk "user" "A", Message.mk "assistant" "B"] := by
  have h := history_returns_appended_turns_in_order emptyDB "s"
    [("s", "user", "A"), ("t", "user", "X"), ("s", "assistant", "B")] (by decide)
  rw [h]
  decide

/-! ## Claim C8: session creation -/

/-- Counterexample to C8 as stated: the identifier "s" has never been used
in a POST /sessions call, yet — because a /chat call already auto-created a
ChatSession row for it — POST /sessions with "s" violates the UNIQUE
constraint and raises IntegrityError: no record is created, and GET
/sessions afterwards contains no row with the submitted title, so the
sequence does not yield the created record exactly once. -/
theorem create_session_after_chat_integrity_error :
    (create_session ⟨"s", "第二"⟩
        (chat ⟨"こんにちは", "s"⟩ emptyDB ApiResult.raises).db).outcome
      = CreateOutcome.integrityError ∧
    ((get_sessions (create_session ⟨"s", "第二"⟩
        (chat ⟨"こんにちは", "s"⟩ emptyDB ApiResult.raises).db).db).sessions.countP
      (fun r => r.title == "第二")) = 0 := by
  exact ⟨by decide, by decide⟩

/-- Claim C8 (amended): for an identifier with no existing ChatSession row
(created neither via POST /sessions nor auto-created by /chat),
POST /sessions creates the record and GET /sessions then lists exactly one
record with that identifier; uniqueness of session identifiers is
preserved. -/
theorem create_session_fresh_exactly_once (db : DB) (s : ChatSessionCreate)
    (hinv : SessionsUnique db) (hfresh : findSession db s.session_id = none) :
    (create_session s db).outcome
      = CreateOutcome.created ⟨db.nextSessionId, s.session_id, s.title, 0⟩ ∧
    ((get_sessions (create_session s db).db).sessions.countP
      (fun r => r.session_id == s.session_id)) = 1 ∧
    SessionsUnique (create_session s db).db ∧
    (create_session s db).closed = true := by
  have hnone : ∀ a ∈ db.chat_sessions, ¬ (a.session_id == s.session_id) = true := by
    have h' : db.chat_sessions.find? (fun x => x.session_id == s.session_id)
        = none := hfresh
    exact List.find?_eq_none.mp h'
  unfold create_session
  rw [hfresh]
  refine ⟨rfl, ?_, ?_, rfl⟩
  · show (db.chat_sessions ++ [(⟨db.nextSessionId, s.session_id, s.title, 0⟩ : ChatSession)]).countP
        (fun r => r.session_id == s.session_id) = 1
    rw [List.countP_append]
    have hz : db.chat_sessions.countP (fun r => r.session_id == s.session_id) = 0 :=
      List.countP_eq_zero.mpr hnone
    have hone : ([(⟨db.nextSessionId, s.session_id, s.title, 0⟩ : ChatSession)]).countP
        (fun r => r.session_id == s.session_id) = 1 := by
      simp [List.countP_cons]
    rw [hz, hone]
  · show List.Pairwise (fun a b : ChatSession => a.session_id ≠ b.session_id)
        (db.chat_sessions ++ [(⟨db.nextSessionId, s.session_id, s.title, 0⟩ : ChatSession)])
    rw [List.pairwise_append]
    refine ⟨hinv, List.pairwise_singleton _ _, ?_⟩
    intro a ha b hb
    simp only [List.mem_singleton] at hb
    subst hb
    show a.session_id ≠ s.session_id
    intro hcontra
    exact hnone a ha (by rw [hcontra]; exact beq_self_eq_true _)

/-- Witness for C8 (amended): identifier "u" is unused in dbFF; creating it
yields the record and exactly one listing. -/
theorem create_session_fresh_exactly_once_witness :
    (create_session ⟨"u", "第二"⟩ dbFF).outcome
      = CreateOutcome.created ⟨2, "u", "第二", 0⟩ ∧
    ((get_sessions (create_session ⟨"u", "第二"⟩ dbFF).db).sessions.countP
      (fun r => r.session_id == "u")) = 1 := by
  have h := create_session_fresh_exactly_once dbFF ⟨"u", "第二"⟩ (by decide) (by decide)
  exact ⟨h.1, h.2.1⟩

/-! ## Claim C9: unknown session reads as empty history -/

/-- Claim C9: for a session identifier with no stored turns — including
identifiers never seen at all — GET /history returns the empty history
(with the connection closed) rather than an error. -/
theorem history_unknown_session_empty (db : DB) (sid : String)
    (h : ∀ l ∈ db.chat_logs, l.session_id ≠ sid) :
    get_history sid db = { history := [], closed := true } := by
  have hf : db.chat_logs.filter (fun l => l.session_id == sid) = [] := by
    rw [List.filter_eq_nil_iff]
    intro a ha hx
    exact h a ha (eq_of_beq hx)
  unfold get_history logsFor
  rw [hf]
  rfl

/-- Witness for C9: dbOther stores a turn for session "other" only; history
for the never-seen identifier "nobody" is empty. -/
theorem history_unknown_session_empty_witness :
    get_history "nobody" dbOther = { history := [], closed := true } :=
  history_unknown_session_empty dbOther "nobody" (by decide)

end StudyAdvisor
